import Mathlib

/-!
Verification of the GEOTEC soil-stabilization expert system (`src/app.py`)
against its natural-language specification.

The relevant parts of the program are shallowly embedded below.  Text is
modelled as `List Char` (Python `str`), numeric measurement values as `ℚ`
(Python `int`/`float` values on which the program only performs exact
comparisons and additions), optional parameters as `Option`, and the two
external collaborators (the search provider and the reasoning model) as
explicit outcome arguments of type `Except`.  Streamlit/FPDF rendering calls
are modelled as pure functions computing which sections each rendering shows.
-/

set_option maxRecDepth 100000

set_option maxHeartbeats 10000000

namespace Geotec

/-- Text, as Python `str`: a sequence of characters. -/
abbrev Str := List Char

/-- Coerce a Lean string literal to the `Str` model. -/
def toL (s : String) : Str := s.toList

/-! ### Python string primitives used by `app.py`

`findSub`, `pyFind`, `pySplit`, `containsSub`, `pyStrip`, `pyLower` model
`str.find`, `str.split`, the `in` operator, `str.strip` and `str.lower`
(the last one character-wise, which agrees with Python on the ASCII
keywords the program searches for). -/

/-- Index of the first occurrence of `pat` in `hay`, if any
(Python `str.find`, restricted to found/not-found). -/
def findSub (hay pat : Str) : Option Nat :=
  if pat.isPrefixOf hay then some 0
  else
    match hay with
    | [] => none
    | _ :: t => (findSub t pat).map (· + 1)

/-- Python `hay.find(pat)`: first index, or `-1` when absent. -/
def pyFind (hay pat : Str) : Int :=
  match findSub hay pat with
  | some i => (i : Int)
  | none => -1

/-- Python `pat in hay` (substring containment).  Written with the
recursive call in tail position so that concrete instances evaluate in
constant stack space. -/
def containsSub : Str → Str → Bool
  | hay, pat =>
    pat.isPrefixOf hay ||
      match hay with
      | [] => false
      | _ :: t => containsSub t pat

/-- Worker for `pySplit`, structurally recursive on a fuel bound.  When
`pat` is non-empty, each recursive step drops at least one character of
`hay`, so with starting fuel `hay.length + 1` the `0` case is never
reached. -/
def pySplitAux : Nat → Str → Str → List Str
  | 0, hay, _ => [hay]
  | fuel + 1, hay, pat =>
    match findSub hay pat with
    | none => [hay]
    | some i => hay.take i :: pySplitAux fuel (hay.drop (i + pat.length)) pat

/-- Python `hay.split(pat)` for a non-empty separator `pat`
(the program only splits on the fixed, non-empty heading strings). -/
def pySplit (hay pat : Str) : List Str :=
  if pat = [] then [hay] else pySplitAux (hay.length + 1) hay pat

/-- Is `c` one of the whitespace characters removed by Python `str.strip()`? -/
def pySpace (c : Char) : Bool :=
  c = ' ' || c = '\t' || c = '\n' || c = '\r' || c = '\x0b' || c = '\x0c'

/-- Python `s.strip()`. -/
def pyStrip (s : Str) : Str :=
  ((s.dropWhile pySpace).reverse.dropWhile pySpace).reverse

/-- Character-wise lower-casing (Python `str.lower`; agrees with Python on
the ASCII keyword searches performed by the program). -/
def pyLower (s : Str) : Str := s.map Char.toLower

/-! ### Data model -/

/-- The soil-type taxonomy offered by the input form (`SOIL_TYPES`). -/
def SOIL_TYPES : List String :=
  ["Arcilla", "Arcilla limosa", "Arcilla orgánica",
   "Limo", "Limo orgánica", "Arena", "Arena limosa",
   "Arena arcillosa", "Grava", "Grava limosa",
   "Grava arcillosa", "Suelo orgánico", "Turba",
   "Loess", "Laterita", "Bentonita", "Margas", "Arcillas expansivas",
   "Suelos colapsables", "Suelos residuales", "Suelos aluviales"]

/-- A `ParameterSet`: the dictionary built by `data_input_interface` and
passed through the pipeline as a `pd.Series`.  The three required keys are
plain fields; every optional key is an `Option` (`none` = key absent from
the dictionary; for `Resistencia deseada (kPa)` the key is always present
but may hold `None`, which the program treats exactly like an absent key,
so `none` also models that state). -/
structure ParameterSet where
  soil_type : String
  water_level : ℚ
  load_pressure : ℚ
  desired_strength : Option ℚ
  gravel : Option ℚ
  sand : Option ℚ
  silt : Option ℚ
  clay : Option ℚ
  ll : Option ℚ
  lp : Option ℚ
  ip : Option ℚ
  moisture : Option ℚ
  ph : Option ℚ
  cbr : Option ℚ
  swelling : Option ℚ
deriving DecidableEq, Repr

/-- An academic search result record (`search_academic_references` builds
dictionaries with exactly these keys). -/
structure AcademicRef where
  title : String
  authors : String
  source : String
  year : String
  snippet : String
  url : String
  engine : String
deriving DecidableEq, Repr

/-- The six section texts of a parsed report (the string-valued entries of
the `sections` dictionary built by `parse_response`; the regex-extracted
`norms` and `references` entries are not needed by any claim and are not
modelled). -/
structure Sections where
  parameter_evaluation : Str
  classification : Str
  problems : Str
  recommendation : Str
  justification : Str
  applications : Str
deriving DecidableEq, Repr

/-! ### ParameterValidator (`validate_soil_parameters`, app.py:142-166) -/

def waterMsg : String := "El nivel freático no puede ser negativo"

def pressureMsg : String := "La presión de carga no puede ser negativa"

def atterbergMsg : String :=
  "El límite líquido (LL) no puede ser menor que el límite plástico (LP)"

def granulometryMsg : String :=
  "La suma de los porcentajes de granulometría debe ser 100%"

/-- The Atterberg check (app.py:155-157): runs only when both limits are
present; the stored plasticity index is never inspected. -/
def atterbergCheck (d : ParameterSet) : List String :=
  match d.ll, d.lp with
  | some ll, some lp => if ll < lp then [atterbergMsg] else []
  | _, _ => []

/-- The granulometry check (app.py:160-162): runs only when all four
percentages are present. -/
def granulometryCheck (d : ParameterSet) : List String :=
  match d.gravel, d.sand, d.silt, d.clay with
  | some g, some s, some si, some c =>
    if g + s + si + c ≠ 100 then [granulometryMsg] else []
  | _, _, _, _ => []

/-- The `errors` list accumulated by `validate_soil_parameters`, in order. -/
def validationErrors (d : ParameterSet) : List String :=
  (if d.water_level < 0 then [waterMsg] else []) ++
  (if d.load_pressure < 0 then [pressureMsg] else []) ++
  atterbergCheck d ++ granulometryCheck d

/-- `validate_soil_parameters`: `None` when coherent, otherwise the joined
violation text. -/
def validate_soil_parameters (d : ParameterSet) : Option String :=
  match validationErrors d with
  | [] => none
  | errs => some (String.intercalate "\n" (errs.map (fun e => "- " ++ e)))

/-! ### Input interface (`data_input_interface`, app.py:168-323)

The widget values submitted with the form; `st.number_input` guarantees
each numeric value is at least its `min_value` (not needed by the claims).
`ip` is not a widget: the program computes it from `ll` and `lp`. -/
structure FormInputs where
  soil_type : String
  water_level : ℚ
  load_pressure : ℚ
  desired_strength : ℚ
  gravel : ℚ
  sand : ℚ
  silt : ℚ
  clay : ℚ
  ll : ℚ
  lp : ℚ
  moisture_content : ℚ
  ph_value : ℚ
  cbr : ℚ
  swelling : ℚ
deriving DecidableEq, Repr

/-- The `data` dictionary constructed on form submission
(app.py:283-313), including the automatic `ip = ll - lp` computation
(app.py:229-233). -/
def buildData (f : FormInputs) : ParameterSet where
  soil_type := f.soil_type
  water_level := f.water_level
  load_pressure := f.load_pressure
  desired_strength := if f.desired_strength > 0 then some f.desired_strength else none
  gravel := if f.gravel + f.sand + f.silt + f.clay > 0 then some f.gravel else none
  sand := if f.gravel + f.sand + f.silt + f.clay > 0 then some f.sand else none
  silt := if f.gravel + f.sand + f.silt + f.clay > 0 then some f.silt else none
  clay := if f.gravel + f.sand + f.silt + f.clay > 0 then some f.clay else none
  ll := if f.ll > 0 then some f.ll else none
  lp := if f.lp > 0 then some f.lp else none
  ip := if f.ll > 0 ∧ f.lp > 0 then some (f.ll - f.lp) else none
  moisture := if f.moisture_content > 0 then some f.moisture_content else none
  ph := if f.ph_value > 0 then some f.ph_value else none
  cbr := if f.cbr > 0 then some f.cbr else none
  swelling := if f.swelling > 0 then some f.swelling else none

/-- The submission branch of `data_input_interface`: validate the built
dictionary and hand it on only when validation passes. -/
def data_input_interface (f : FormInputs) : Option ParameterSet :=
  match validate_soil_parameters (buildData f) with
  | some _ => none
  | none => some (buildData f)

/-! ### ReferenceResolver (`search_academic_references`, app.py:103-140,
and the dedup/cap logic of `generate_technical_prompt`, app.py:339-355)

The HTTP round-trip of one query is external; its outcome is passed in as
an `Except`: `.ok rs` is a successfully parsed result page (from which the
program keeps the first five entries), `.error` is any raised exception,
which the `except` clause swallows after logging, so the query contributes
an empty list. -/

/-- `search_academic_references` applied to one query's network outcome. -/
def search_academic_references (outcome : Except String (List AcademicRef)) :
    List AcademicRef :=
  match outcome with
  | .ok rs => rs.take 5
  | .error _ => []

/-- The `unique_refs` loop of `generate_technical_prompt` (app.py:344-349):
keep each title's first occurrence, tracking seen titles. -/
def uniqueRefs (refs : List AcademicRef) (seen : List String) : List AcademicRef :=
  match refs with
  | [] => []
  | r :: rest =>
    if seen.contains r.title then uniqueRefs rest seen
    else r :: uniqueRefs rest (r.title :: seen)

/-- The combined `academic_refs` list accumulated over the query sequence
(app.py:339-341). -/
def academicRefs (outcomes : List (Except String (List AcademicRef))) :
    List AcademicRef :=
  (outcomes.map search_academic_references).flatten

/-- The references actually embedded in the prompt: global title dedup,
then the overall cap of 10 (`unique_refs[:10]`, app.py:352-354). -/
def resolvedRefs (outcomes : List (Except String (List AcademicRef))) :
    List AcademicRef :=
  (uniqueRefs (academicRefs outcomes) []).take 10

/-! ### ReasoningClient (`query_ai`, app.py:492-527)

The OpenAI call is external; its outcome is passed in.  A raised exception
is caught and converted into the literal text `"Error: <message>"`, which
is *returned as the analysis string* (there is no retry and no re-raise). -/

/-- `query_ai` applied to the reasoning outcome. -/
def query_ai (outcome : Except String String) : String :=
  match outcome with
  | .ok content => content
  | .error e => "Error: " ++ e

/-! ### ResponseParser (`parse_response`, app.py:529-584)

Only the six-section segmentation is modelled (the regex-based `norms` and
`references` extraction feeds no claim). -/

/-- The six canonical heading strings, in the declared (dict-insertion)
order of `section_markers` (app.py:564-571). -/
def markerEval : Str := toL "Evaluación de Parámetros:"

def markerClass : Str := toL "Clasificación del Suelo:"

def markerProb : Str := toL "Problemas Identificados:"

def markerRec : Str := toL "Recomendación Óptima:"

def markerJust : Str := toL "Justificación Técnica:"

def markerApp : Str := toL "Aplicaciones Recomendadas:"

def markerList : List Str :=
  [markerEval, markerClass, markerProb, markerRec, markerJust, markerApp]

/-- One iteration of the section-extraction loop (app.py:573-582): if the
heading occurs, the end marker is the *first, in declared order*, of the
other headings whose first occurrence lies strictly after this heading's
first occurrence (`next(m for m in section_markers.values() ...)`); the
section text is `content.split(marker)[1]`, cut at the end marker and
stripped.  An absent heading leaves the section at `""`. -/
def extractSection (content marker : Str) : Str :=
  if containsSub content marker then
    let p := pyFind content marker
    let endMarker := markerList.find? (fun m => decide (m ≠ marker) && decide (pyFind content m > p))
    let sc := ((pySplit content marker).drop 1).headD []
    let sc2 :=
      match endMarker with
      | some em => (pySplit sc em).headD []
      | none => sc
    pyStrip sc2
  else []

/-- `parse_response` (section segmentation only). -/
def parse_response (content : Str) : Sections where
  parameter_evaluation := extractSection content markerEval
  classification := extractSection content markerClass
  problems := extractSection content markerProb
  recommendation := extractSection content markerRec
  justification := extractSection content markerJust
  applications := extractSection content markerApp

/-! ### ReportAssembler, interactive view (`display_results`, app.py:586-648) -/

/-- What the interactive view renders: either the rejection branch
(`st.error` plus the evaluation text only, then `return`), or the full
tabbed report built from the parsed sections. -/
inductive DisplayResult where
  | rejected (evaluation : Str)
  | completed (secs : Sections)
deriving DecidableEq, Repr

/-- The rejection test of `display_results` (app.py:592-596): evaluation
text non-empty and containing, case-insensitively, one of the two
keywords. -/
def rejectionTest (s : Sections) : Bool :=
  !s.parameter_evaluation.isEmpty &&
    (containsSub (pyLower s.parameter_evaluation) (toL "inconsistencias") ||
     containsSub (pyLower s.parameter_evaluation) (toL "error"))

/-- `display_results` as a pure function from the raw analysis text to
what is rendered. -/
def display_results (analysis : Str) : DisplayResult :=
  if rejectionTest (parse_response analysis) then
    .rejected (parse_response analysis).parameter_evaluation
  else .completed (parse_response analysis)

/-! ### ReportAssembler, paginated view (`generate_pdf_report`,
app.py:650-785) -/

/-- Tags for the report sections a rendering may show. -/
inductive ReportSection where
  | evaluation
  | classification
  | problems
  | recommendation
  | justification
  | applications
deriving DecidableEq, Repr

/-- Which sections `generate_pdf_report` writes into the PDF, in order:
each non-empty section is rendered (justification only below a non-empty
recommendation, mirroring the nesting at app.py:736-749); there is no
rejection-keyword check anywhere in the function. -/
def pdfSections (s : Sections) : List ReportSection :=
  (if s.parameter_evaluation ≠ [] then [ReportSection.evaluation] else []) ++
  (if s.classification ≠ [] then [ReportSection.classification] else []) ++
  (if s.problems ≠ [] then [ReportSection.problems] else []) ++
  (if s.recommendation ≠ [] then [ReportSection.recommendation] else []) ++
  (if s.recommendation ≠ [] ∧ s.justification ≠ [] then [ReportSection.justification] else []) ++
  (if s.applications ≠ [] then [ReportSection.applications] else [])

/-! ### PromptBuilder (`generate_technical_prompt`, app.py:325-488)

The Python function interpolates `int`/`float` values into f-strings; the
numeral rendering is abstracted as a `render : ℚ → Str` argument (the
claims only depend on rendered numerals consisting of digit/point/minus
characters, stated as a hypothesis where needed).  All fixed template text
is reproduced byte-exactly from the source. -/

/-- The technical-data block, `soil_data_text` (app.py:370-405): the fixed
header plus the three required lines, then one conditionally appended
fragment per optional attribute, with the hard-coded item numbers 4-10. -/
def soilBase (render : ℚ → Str) (d : ParameterSet) : Str :=
  toL "\n    ### Datos Técnicos del Suelo:\n    1. Tipo de suelo: " ++ d.soil_type.toList ++
  toL "\n    2. Nivel freático: " ++ render d.water_level ++
  toL " m\n    3. Presión de carga: " ++ render d.load_pressure ++ toL " kPa"

def dsPart (render : ℚ → Str) (d : ParameterSet) : Str :=
  match d.desired_strength with
  | some v => toL "\n4. Resistencia deseada: " ++ render v ++ toL " kPa"
  | none => []

def granPart (render : ℚ → Str) (d : ParameterSet) : Str :=
  match d.gravel, d.sand, d.silt, d.clay with
  | some g, some s, some si, some c =>
    toL "\n    5. Granulometría:\n       - Grava: " ++ render g ++
    toL "%\n       - Arena: " ++ render s ++
    toL "%\n       - Limo: " ++ render si ++
    toL "%\n       - Arcilla: " ++ render c ++ toL "%"
  | _, _, _, _ => []

def ipPart (render : ℚ → Str) (d : ParameterSet) : Str :=
  match d.ip with
  | some v => toL "\n       - Índice de plasticidad (IP): " ++ render v
  | none => []

def attPart (render : ℚ → Str) (d : ParameterSet) : Str :=
  match d.ll, d.lp with
  | some ll, some lp =>
    toL "\n    6. Límites de Atterberg:\n       - Límite líquido (LL): " ++ render ll ++
    toL "\n       - Límite plástico (LP): " ++ render lp ++ ipPart render d
  | _, _ => []

def moistPart (render : ℚ → Str) (d : ParameterSet) : Str :=
  match d.moisture with
  | some v => toL "\n7. Contenido de humedad natural: " ++ render v ++ toL "%"
  | none => []

def phPart (render : ℚ → Str) (d : ParameterSet) : Str :=
  match d.ph with
  | some v => toL "\n8. pH del suelo: " ++ render v
  | none => []

def cbrPart (render : ℚ → Str) (d : ParameterSet) : Str :=
  match d.cbr with
  | some v => toL "\n9. CBR: " ++ render v ++ toL "%"
  | none => []

def swellPart (render : ℚ → Str) (d : ParameterSet) : Str :=
  match d.swelling with
  | some v => toL "\n10. Potencial de hinchamiento: " ++ render v ++ toL "%"
  | none => []

def soil_data_text (render : ℚ → Str) (d : ParameterSet) : Str :=
  soilBase render d ++ dsPart render d ++ granPart render d ++ attPart render d ++
  moistPart render d ++ phPart render d ++ cbrPart render d ++ swellPart render d

/-- The 2-3 derived search queries (app.py:328-337): plasticity index is
preferred over liquid limit for the third query. -/
def search_queries (render : ℚ → Str) (d : ParameterSet) : List Str :=
  [toL "estabilización de " ++ d.soil_type.toList ++ toL " nivel freático " ++
     render d.water_level ++ toL "m",
   d.soil_type.toList ++ toL " presión de carga " ++ render d.load_pressure ++ toL "kPa"] ++
  (match d.ip with
   | some v =>
     [toL "métodos de estabilización para " ++ d.soil_type.toList ++ toL " IP" ++ render v]
   | none =>
     match d.ll with
     | some v =>
       [toL "métodos de estabilización para " ++ d.soil_type.toList ++ toL " LL" ++ render v]
     | none => [])

/-- `refs_text` (app.py:352-355): the formatted citation lines of the
first ten deduplicated references, or the explicit placeholder. -/
def refs_text (outcomes : List (Except String (List AcademicRef))) : Str :=
  let u := uniqueRefs (academicRefs outcomes) []
  if u = [] then toL "No se encontraron referencias adicionales"
  else
    List.intercalate (toL "\n")
      ((u.take 10).map (fun r =>
        toL "- " ++ r.authors.toList ++ toL " (" ++ r.year.toList ++ toL "). " ++
        r.title.toList ++ toL ". " ++ r.source.toList ++ toL " [URL: " ++
        r.url.toList ++ toL "]"))

/-- `normative_context` / `article_context` (app.py:358-367): header plus
up to five name/truncated-excerpt lines, or the explicit placeholder. -/
def contextBlock (header emptyMsg : String) (docs : List (String × String)) : Str :=
  if docs = [] then toL emptyMsg
  else
    toL header ++
    List.intercalate (toL "\n")
      ((docs.take 5).map (fun nc => toL "- " ++ nc.1.toList ++ toL ": " ++
        (nc.2.toList.take 500) ++ toL "..."))

def normative_context (normatives : List (String × String)) : Str :=
  contextBlock "\nNormativas relevantes:\n" "\nNo hay normativas cargadas" normatives

def article_context (articles : List (String × String)) : Str :=
  contextBlock "\nArtículos técnicos:\n" "\nNo hay artículos cargados" articles

/-- The fixed closing requirements / output-contract block of the prompt
template (app.py:423-488). -/
def reqBlock : String :=
  "\n\n    ### Requerimientos del Análisis:\n    1. **Evaluación de Parámetros:**\n       - Verifica la coherencia de los parámetros ingresados\n       - Si hay inconsistencias, explica por qué no se puede realizar el análisis\n       - Considera que algunos parámetros pueden no estar disponibles\n\n    2. **Clasificación Detallada:**\n       - Clasifica el suelo según USCS y AASHTO con los datos disponibles\n       - Explica cada parámetro disponible y su implicación\n       - Indica las limitaciones por falta de datos si es necesario\n\n    3. **Problemas Identificados:**\n       - Lista los problemas específicos para este suelo\n       - Relaciona cada problema con los parámetros ingresados\n       - Señala posibles problemas no identificables por falta de datos\n\n    4. **Recomendación de Estabilización:**\n       - Realiza un análisis exhaustivo considerando:\n         * Métodos físicos (compactación, inclusión de geosintéticos)\n         * Métodos químicos (cal, cemento, polímeros)\n         * Métodos innovadores (biocementación, nanotecnología)\n       - Selecciona UN único método óptimo basado en los datos disponibles\n       - El método recomendado debe ser SUPER ESPECÍFICO (no genérico)\n       - Considera que algunos métodos pueden no ser evaluables por falta de datos\n\n    5. **Justificación Técnica Rigurosa:**\n       - Explica el mecanismo de acción del método recomendado\n       - Detalla materiales requeridos con especificaciones técnicas\n       - Describe el proceso constructivo paso a paso\n       - Presenta resultados esperados cuantificables\n       - Cita normativas aplicables (ASTM, AASHTO, ISO, etc) con números exactos\n       - Referencia artículos técnicos que respalden la recomendación\n       - Compara con otros métodos descartados y explica por qué no son óptimos\n       - Indica cualquier limitación en el análisis debido a falta de datos\n\n    6. **Aplicaciones Recomendadas:**\n       - Proporciona aplicaciones específicas basadas en los datos disponibles con:\n         * Tipo de proyecto exacto (ej: \"Cimentación para edificio de 5 pisos\")\n         * Configuración recomendada\n         * Ejemplos reales documentados (si existen)\n         * Justificación técnica para cada aplicación\n       - Indica si las recomendaciones podrían refinarse con datos adicionales\n\n    ### Formato de Respuesta Estricto:\n    **Evaluación de Parámetros:**\n    [Análisis de coherencia de los datos ingresados y limitaciones por datos faltantes]\n\n    **Clasificación del Suelo:**\n    [Clasificación detallada según sistemas estándar con los datos disponibles]\n\n    **Problemas Identificados:**\n    [Lista de problemas específicos para este suelo y posibles riesgos no evaluables]\n\n    **Recomendación Óptima:**\n    [Método específico recomendado con consideración de datos faltantes]\n\n    **Justificación Técnica:**\n    [Explicación detallada con fundamentos técnicos, normativas y referencias]\n\n    **Aplicaciones Recomendadas:**\n    1. [Proyecto específico 1 con justificación]\n    2. [Proyecto específico 2 con justificación]\n    3. [Proyecto específico 3 con justificación]\n    4. [Proyecto específico 4 con justificación]\n    5. [Proyecto específico 5 con justificación]\n    "

/-- Everything of the assembled prompt that follows the technical-data
block (the f-string tail of app.py:407-488 with its interpolations). -/
def promptTail (additional_info : Str) (normatives articles : List (String × String))
    (outcomes : List (Except String (List AcademicRef))) : Str :=
  toL "\n\n    ### Contexto Técnico:\n    " ++ normative_context normatives ++
  toL "\n    " ++ article_context articles ++
  toL "\n\n    ### Referencias Académicas Relevantes:\n    " ++ refs_text outcomes ++
  toL "\n\n    ### Información Adicional del Proyecto:\n    " ++
  (if additional_info = [] then toL "Ninguna" else additional_info) ++
  toL reqBlock

/-- The fixed role-framing preamble of the prompt. -/
def promptPre : Str :=
  toL "\n    Eres un ingeniero geotécnico senior con 30 años de experiencia en estabilización de suelos. \n    Realiza un análisis exhaustivo para este caso específico:\n\n    "

/-- `generate_technical_prompt`: the assembled instruction document.  The
per-query network results are supplied by `net` (one outcome per derived
query string). -/
def generate_technical_prompt (render : ℚ → Str) (d : ParameterSet)
    (additional_info : Str) (normatives articles : List (String × String))
    (net : Str → Except String (List AcademicRef)) : Str :=
  promptPre ++ soil_data_text render d ++
  promptTail additional_info normatives articles ((search_queries render d).map net)

/-! ### Concrete inputs used by counterexamples and witnesses -/

/-- A `ParameterSet` with no optional attribute present. -/
def dPlain : ParameterSet :=
  ⟨"Arcilla", 2, 150, none, none, none, none, none, none, none, none, none, none, none, none⟩

/-- Both Atterberg limits present, stored plasticity index `7` although
`LL - LP = 30`. -/
def dBadIp : ParameterSet :=
  ⟨"Arcilla", 2, 150, none, none, none, none, none, some 50, some 20, some 7, none,
   none, none, none⟩

/-- All four granulometry percentages present, summing to `90`. -/
def dGran90 : ParameterSet :=
  ⟨"Arena", 2, 150, none, some 20, some 20, some 20, some 30, none, none, none, none,
   none, none, none⟩

/-- All four granulometry percentages present, summing to `110`. -/
def dGran110 : ParameterSet :=
  ⟨"Arena", 2, 150, none, some 40, some 40, some 20, some 10, none, none, none, none,
   none, none, none⟩

/-- Granulometry absent (no percentage present). -/
def dGranNone : ParameterSet :=
  ⟨"Arena", 2, 150, none, none, none, none, none, none, none, none, none, none, none,
   none⟩

/-- Moisture content present, every other optional attribute absent. -/
def dMoist : ParameterSet :=
  ⟨"Limo", 2, 150, none, none, none, none, none, none, none, none, some 12, none, none,
   none⟩

/-- Form submission with every optional widget left at `0`. -/
def fZero : FormInputs :=
  ⟨"Arena", 2, 150, 0, 0, 0, 0, 0, 0, 0, 0, 0, 0, 0⟩

/-- Two search results sharing neither title, and a third repeating the
first title with different metadata. -/
def exRef1 : AcademicRef :=
  ⟨"Soil stabilization with lime", "Smith, J.", "Geotech J.", "2019", "s1", "u1", "Google Scholar"⟩

def exRef2 : AcademicRef :=
  ⟨"Cement treatment of clays", "Lee, K.", "Proc. ICSMGE", "2020", "s2", "u2", "Google Scholar"⟩

def exRef1' : AcademicRef :=
  ⟨"Soil stabilization with lime", "Other, A.", "Elsewhere", "2021", "s3", "u3", "Google Scholar"⟩

/-- The six headings in a scrambled order (evaluation, problems,
classification, recommendation, justification, applications), each
followed by a distinct block. -/
def cScrambled : Str :=
  toL "Evaluación de Parámetros: EVAL Problemas Identificados: PROB Clasificación del Suelo: CLS Recomendación Óptima: REC Justificación Técnica: JUS Aplicaciones Recomendadas: APP"

/-- The six headings in the declared order, each followed by a distinct
block. -/
def cDeclared : Str :=
  toL "Evaluación de Parámetros: EVAL Clasificación del Suelo: CLS Problemas Identificados: PROB Recomendación Óptima: REC Justificación Técnica: JUS Aplicaciones Recomendadas: APP"

/-- A rotation of the declared order: applications first, then the other
five headings in declared order. -/
def cRotated : Str :=
  toL "Aplicaciones Recomendadas: APP Evaluación de Parámetros: EVAL Clasificación del Suelo: CLS Problemas Identificados: PROB Recomendación Óptima: REC Justificación Técnica: JUS"

/-- An analysis whose evaluation section flags inconsistencies and whose
classification section parsed successfully. -/
def cReject : Str :=
  toL "Evaluación de Parámetros: Hay inconsistencias en los datos. Clasificación del Suelo: Suelo CL."

/-- An otherwise positive evaluation containing `"errores"` inside a
longer word. -/
def cErrores : Str :=
  toL "Evaluación de Parámetros: Los datos son coherentes y no presentan errores graves. Clasificación del Suelo: Suelo CL."

/-- A concrete numeral rendering used to instantiate witnesses. -/
def renderZero : ℚ → Str := fun _ => toL "0"

/-- A network that fails every search query. -/
def netFail : Str → Except String (List AcademicRef) := fun _ => Except.error "offline"

/-! ### Attribute labels (for the PromptBuilder claims)

`labelOf` is the label text of each optional attribute exactly as it is
printed (followed by the value) in the technical-data block. -/

inductive OptAttr where
  | strength
  | gravelPct
  | sandPct
  | siltPct
  | clayPct
  | liquidLimit
  | plasticLimit
  | plasticityIndex
  | moistureContent
  | phValue
  | cbrValue
  | swellingPot
deriving DecidableEq, Repr

def labelOf : OptAttr → Str
  | .strength => toL "Resistencia deseada:"
  | .gravelPct => toL "Grava:"
  | .sandPct => toL "Arena:"
  | .siltPct => toL "Limo:"
  | .clayPct => toL "Arcilla:"
  | .liquidLimit => toL "Límite líquido (LL):"
  | .plasticLimit => toL "Límite plástico (LP):"
  | .plasticityIndex => toL "Índice de plasticidad (IP):"
  | .moistureContent => toL "Contenido de humedad natural:"
  | .phValue => toL "pH del suelo:"
  | .cbrValue => toL "CBR:"
  | .swellingPot => toL "Potencial de hinchamiento:"

/-- The attribute is absent from the `ParameterSet`. -/
def attrAbsent : OptAttr → ParameterSet → Prop
  | .strength, d => d.desired_strength = none
  | .gravelPct, d => d.gravel = none
  | .sandPct, d => d.sand = none
  | .siltPct, d => d.silt = none
  | .clayPct, d => d.clay = none
  | .liquidLimit, d => d.ll = none
  | .plasticLimit, d => d.lp = none
  | .plasticityIndex, d => d.ip = none
  | .moistureContent, d => d.moisture = none
  | .phValue, d => d.ph = none
  | .cbrValue, d => d.cbr = none
  | .swellingPot, d => d.swelling = none

/-- A character that can occur in a rendered numeral (Python prints the
`int`/`float` parameter values with digits, a decimal point and possibly a
sign). -/
abbrev numChar (c : Char) : Prop := c.isDigit ∨ c = '.' ∨ c = '-'

/-- The numeral rendering produces non-empty strings of numeral
characters. -/
def NumeralRender (render : ℚ → Str) : Prop :=
  ∀ q : ℚ, render q ≠ [] ∧ ∀ c ∈ render q, numChar c

/-- No non-empty proper prefix of `p` is a suffix of `y`: an occurrence of
`p` can then never start inside a block ending with `y` and continue past
it. -/
def noSpanLeft (y p : Str) : Bool :=
  (List.range p.length).all (fun i => i == 0 || !((p.take i).isSuffixOf y))

/-! ## Helper lemmas -/

theorem mem_ite_singleton {α : Type} {a b : α} {c : Prop} [Decidable c] :
    (a ∈ if c then [b] else []) ↔ c ∧ a = b := by
  split <;> simp_all

/-- Membership in the Atterberg component of the error list. -/
theorem mem_atterbergCheck_iff (msg : String) (d : ParameterSet) :
    msg ∈ atterbergCheck d ↔
      ∃ ll lp, d.ll = some ll ∧ d.lp = some lp ∧ ll < lp ∧ msg = atterbergMsg := by
  rcases hll : d.ll with _ | ll <;> rcases hlp : d.lp with _ | lp <;>
    simp [atterbergCheck, hll, hlp, mem_ite_singleton, and_assoc]

/-- Membership in the granulometry component of the error list. -/
theorem mem_granulometryCheck_iff (msg : String) (d : ParameterSet) :
    msg ∈ granulometryCheck d ↔
      ∃ g s si c, d.gravel = some g ∧ d.sand = some s ∧ d.silt = some si ∧
        d.clay = some c ∧ g + s + si + c ≠ 100 ∧ msg = granulometryMsg := by
  rcases hg : d.gravel with _ | g <;> rcases hs : d.sand with _ | s <;>
    rcases hsi : d.silt with _ | si <;> rcases hc : d.clay with _ | c <;>
    simp [granulometryCheck, hg, hs, hsi, hc, mem_ite_singleton, and_assoc]

/-- Full characterization of the violations reported by
`validate_soil_parameters`. -/
theorem mem_validationErrors_iff (msg : String) (d : ParameterSet) :
    msg ∈ validationErrors d ↔
      (d.water_level < 0 ∧ msg = waterMsg) ∨
      (d.load_pressure < 0 ∧ msg = pressureMsg) ∨
      (∃ ll lp, d.ll = some ll ∧ d.lp = some lp ∧ ll < lp ∧ msg = atterbergMsg) ∨
      (∃ g s si c, d.gravel = some g ∧ d.sand = some s ∧ d.silt = some si ∧
        d.clay = some c ∧ g + s + si + c ≠ 100 ∧ msg = granulometryMsg) := by
  simp [validationErrors, List.mem_append, mem_ite_singleton,
    mem_atterbergCheck_iff, mem_granulometryCheck_iff, and_assoc]

theorem atterberg_ne_water : atterbergMsg ≠ waterMsg := by decide

theorem atterberg_ne_pressure : atterbergMsg ≠ pressureMsg := by decide

theorem atterberg_ne_gran : atterbergMsg ≠ granulometryMsg := by decide

theorem gran_ne_water : granulometryMsg ≠ waterMsg := by decide

theorem gran_ne_pressure : granulometryMsg ≠ pressureMsg := by decide

theorem validate_eq_none_iff (d : ParameterSet) :
    validate_soil_parameters d = none ↔ validationErrors d = [] := by
  unfold validate_soil_parameters
  split <;> simp_all

/-! ## C3 — Atterberg validation

The claim: with both limits present, a violation is reported iff the
stored plasticity index differs from `LL - LP` (when present) or
`LL < LP`.  The code never inspects the stored plasticity index
(app.py:155-157), so an inconsistent stored index yields no violation:
the claim's "iff" fails in the only direction involving the index. -/

/-- C3 counterexample: `LL = 50 ≥ LP = 20` with stored plasticity index
`7 ≠ 50 - 20`, yet `validate_soil_parameters` reports no violation at
all, while the claim demands one. -/
theorem c3_counterexample :
    dBadIp.ll = some 50 ∧ dBadIp.lp = some 20 ∧ dBadIp.ip = some 7 ∧
    ((7 : ℚ) ≠ 50 - 20) ∧ validate_soil_parameters dBadIp = none := by
  refine ⟨rfl, rfl, rfl, by norm_num, ?_⟩
  decide

/-- C3 amended: with both limits present, an Atterberg violation is
reported iff the liquid limit is strictly below the plastic limit; the
stored plasticity index is never checked. -/
theorem c3_atterberg_iff (d : ParameterSet) (ll lp : ℚ)
    (hll : d.ll = some ll) (hlp : d.lp = some lp) :
    atterbergMsg ∈ validationErrors d ↔ ll < lp := by
  rw [mem_validationErrors_iff]
  constructor
  · rintro (⟨_, h⟩ | ⟨_, h⟩ | ⟨ll', lp', h1, h2, h3, _⟩ |
      ⟨_, _, _, _, _, _, _, _, _, h⟩)
    · exact absurd h atterberg_ne_water
    · exact absurd h atterberg_ne_pressure
    · rw [hll] at h1
      rw [hlp] at h2
      have e1 := Option.some.inj h1
      have e2 := Option.some.inj h2
      rw [e1, e2]
      exact h3
    · exact absurd h atterberg_ne_gran
  · intro h
    exact Or.inr (Or.inr (Or.inl ⟨ll, lp, hll, hlp, h, rfl⟩))

/-- Witness for `c3_atterberg_iff` at the concrete counterexample input:
no Atterberg violation since `50 ≥ 20`. -/
theorem c3_atterberg_iff_witness : atterbergMsg ∉ validationErrors dBadIp :=
  fun h => absurd ((c3_atterberg_iff dBadIp 50 20 rfl rfl).mp h) (by norm_num)

/-! ## C8 — granulometry validation -/

/-- C8: with all four percentages present, a granulometry violation is
reported iff the sum differs from `100` (above or below); with any
percentage absent, no granulometry violation is reported. -/
theorem c8_granulometry :
    (∀ (d : ParameterSet) (g s si c : ℚ), d.gravel = some g → d.sand = some s →
      d.silt = some si → d.clay = some c →
      (granulometryMsg ∈ validationErrors d ↔ g + s + si + c ≠ 100)) ∧
    (∀ d : ParameterSet,
      d.gravel = none ∨ d.sand = none ∨ d.silt = none ∨ d.clay = none →
      granulometryMsg ∉ validationErrors d) := by
  constructor
  · intro d g s si c hg hs hsi hc
    rw [mem_validationErrors_iff]
    constructor
    · rintro (⟨_, h⟩ | ⟨_, h⟩ | ⟨_, _, _, _, _, h⟩ |
        ⟨g', s', si', c', hg', hs', hsi', hc', hsum, _⟩)
      · exact absurd h gran_ne_water
      · exact absurd h gran_ne_pressure
      · exact absurd h (Ne.symm atterberg_ne_gran)
      · rw [hg] at hg'
        rw [hs] at hs'
        rw [hsi] at hsi'
        rw [hc] at hc'
        rw [Option.some.inj hg', Option.some.inj hs', Option.some.inj hsi',
          Option.some.inj hc']
        exact hsum
    · intro h
      exact Or.inr (Or.inr (Or.inr ⟨g, s, si, c, hg, hs, hsi, hc, h, rfl⟩))
  · intro d habs h
    rw [mem_validationErrors_iff] at h
    rcases h with ⟨_, h⟩ | ⟨_, h⟩ | ⟨_, _, _, _, _, h⟩ |
      ⟨g, s, si, c, hg, hs, hsi, hc, _, _⟩
    · exact absurd h gran_ne_water
    · exact absurd h gran_ne_pressure
    · exact absurd h (Ne.symm atterberg_ne_gran)
    · rcases habs with h0 | h0 | h0 | h0
      · rw [h0] at hg; simp at hg
      · rw [h0] at hs; simp at hs
      · rw [h0] at hsi; simp at hsi
      · rw [h0] at hc; simp at hc

/-- Witness for `c8_granulometry`: a violation at sum `90`, a violation
at sum `110`, and none when the percentages are absent. -/
theorem c8_granulometry_witness :
    granulometryMsg ∈ validationErrors dGran90 ∧
    granulometryMsg ∈ validationErrors dGran110 ∧
    granulometryMsg ∉ validationErrors dGranNone :=
  ⟨(c8_granulometry.1 dGran90 20 20 20 30 rfl rfl rfl rfl).mpr (by norm_num),
   (c8_granulometry.1 dGran110 40 40 20 10 rfl rfl rfl rfl).mpr (by norm_num),
   c8_granulometry.2 dGranNone (Or.inl rfl)⟩

/-! ## C9 — a zero entry omits the attribute -/

/-- C9: for each optional numeric widget (the four granulometry
percentages taken jointly), an entered value of `0` leaves the attribute
out of the constructed `ParameterSet`. -/
theorem c9_zero_omitted (f : FormInputs) :
    (f.desired_strength = 0 → (buildData f).desired_strength = none) ∧
    (f.gravel = 0 ∧ f.sand = 0 ∧ f.silt = 0 ∧ f.clay = 0 →
      (buildData f).gravel = none ∧ (buildData f).sand = none ∧
      (buildData f).silt = none ∧ (buildData f).clay = none) ∧
    (f.ll = 0 → (buildData f).ll = none) ∧
    (f.lp = 0 → (buildData f).lp = none) ∧
    (f.moisture_content = 0 → (buildData f).moisture = none) ∧
    (f.ph_value = 0 → (buildData f).ph = none) ∧
    (f.cbr = 0 → (buildData f).cbr = none) ∧
    (f.swelling = 0 → (buildData f).swelling = none) := by
  refine ⟨fun h => ?_, fun h4 => ?_, fun h => ?_, fun h => ?_, fun h => ?_,
    fun h => ?_, fun h => ?_, fun h => ?_⟩
  · simp [buildData, h]
  · obtain ⟨h1, h2, h3, h4⟩ := h4
    norm_num [buildData, h1, h2, h3, h4]
  · simp [buildData, h]
  · simp [buildData, h]
  · simp [buildData, h]
  · simp [buildData, h]
  · simp [buildData, h]
  · simp [buildData, h]

/-! ## Parser / rendering helper lemmas -/

theorem extractSection_not_found {content marker : Str}
    (h : containsSub content marker = false) : extractSection content marker = [] := by
  simp [extractSection, h]

/-- A raw text containing none of the six headings parses to six empty
sections. -/
theorem parse_response_no_markers (analysis : Str)
    (h : ∀ m ∈ markerList, containsSub analysis m = false) :
    parse_response analysis = ⟨[], [], [], [], [], []⟩ := by
  simp only [parse_response]
  rw [extractSection_not_found (h markerEval (by simp [markerList])),
    extractSection_not_found (h markerClass (by simp [markerList])),
    extractSection_not_found (h markerProb (by simp [markerList])),
    extractSection_not_found (h markerRec (by simp [markerList])),
    extractSection_not_found (h markerJust (by simp [markerList])),
    extractSection_not_found (h markerApp (by simp [markerList]))]

/-! ## C10 — case-insensitive substring rejection test -/

/-- C10: whenever the lower-cased evaluation text contains either keyword
as a substring (also inside a longer word), the interactive view renders
only the evaluation section. -/
theorem c10_keyword_rejects (analysis : Str)
    (h : containsSub (pyLower (parse_response analysis).parameter_evaluation)
           (toL "inconsistencias") = true ∨
         containsSub (pyLower (parse_response analysis).parameter_evaluation)
           (toL "error") = true) :
    display_results analysis =
      DisplayResult.rejected (parse_response analysis).parameter_evaluation := by
  have hne : (parse_response analysis).parameter_evaluation ≠ [] := by
    intro h0
    rcases h with h | h <;> rw [h0] at h <;> exact absurd h (by decide)
  have ht : rejectionTest (parse_response analysis) = true := by
    unfold rejectionTest
    rcases h with h | h <;> simp [h, hne]
  simp [display_results, ht]

/-- Witness for `c10_keyword_rejects`: an otherwise positive evaluation
whose word `"errores"` contains `"error"` is rejected. -/
theorem c10_keyword_rejects_witness :
    display_results cErrores =
      DisplayResult.rejected
        (toL "Los datos son coherentes y no presentan errores graves.") :=
  (c10_keyword_rejects cErrores (Or.inr (by decide))).trans (by decide)

/-! ## C7 — rejection must suppress sections in both renderings

The interactive view suppresses everything but the evaluation, but
`generate_pdf_report` contains no rejection-keyword check: the PDF renders
every non-empty parsed section regardless, so the claim fails for the
paginated document. -/

/-- C7 counterexample: an evaluation text containing `"inconsistencias"`
makes the interactive view reject, yet the paginated document still
renders the (successfully parsed, non-empty) classification section. -/
theorem c7_counterexample :
    display_results cReject =
      DisplayResult.rejected (toL "Hay inconsistencias en los datos.") ∧
    (parse_response cReject).classification = toL "Suelo CL." ∧
    ReportSection.classification ∈ pdfSections (parse_response cReject) := by
  refine ⟨by decide, by decide, by decide⟩

/-- C7 amended: on a keyword-flagged report the interactive view shows
only the evaluation, while the paginated document still renders each of
the other sections iff it parsed non-empty. -/
theorem c7_amended (analysis : Str)
    (h : rejectionTest (parse_response analysis) = true) :
    display_results analysis =
      DisplayResult.rejected (parse_response analysis).parameter_evaluation ∧
    (ReportSection.classification ∈ pdfSections (parse_response analysis) ↔
      (parse_response analysis).classification ≠ []) ∧
    (ReportSection.problems ∈ pdfSections (parse_response analysis) ↔
      (parse_response analysis).problems ≠ []) ∧
    (ReportSection.recommendation ∈ pdfSections (parse_response analysis) ↔
      (parse_response analysis).recommendation ≠ []) ∧
    (ReportSection.applications ∈ pdfSections (parse_response analysis) ↔
      (parse_response analysis).applications ≠ []) := by
  refine ⟨by simp [display_results, h], ?_, ?_, ?_, ?_⟩ <;>
    · generalize parse_response analysis = s
      simp [pdfSections, mem_ite_singleton]

/-- Witness for `c7_amended` at the concrete flagged report. -/
theorem c7_amended_witness :
    display_results cReject =
      DisplayResult.rejected (parse_response cReject).parameter_evaluation ∧
    (ReportSection.classification ∈ pdfSections (parse_response cReject) ↔
      (parse_response cReject).classification ≠ []) ∧
    (ReportSection.problems ∈ pdfSections (parse_response cReject) ↔
      (parse_response cReject).problems ≠ []) ∧
    (ReportSection.recommendation ∈ pdfSections (parse_response cReject) ↔
      (parse_response cReject).recommendation ≠ []) ∧
    (ReportSection.applications ∈ pdfSections (parse_response cReject) ↔
      (parse_response cReject).applications ≠ []) :=
  c7_amended cReject (by decide)

/-! ## C2 — failure handling asymmetry

A reasoning failure is *not* surfaced as a visible error: `query_ai`
returns the text `"Error: <msg>"`, which `main` parses and renders as a
completed (empty-sectioned) report.  A failed search query does degrade
silently. -/

/-- C2 counterexample: a reasoning failure produces an analysis string
that is parsed and rendered as a completed report (the success branch of
`display_results`), not surfaced as a visible error. -/
theorem c2_counterexample :
    query_ai (Except.error "Connection timeout") = "Error: Connection timeout" ∧
    display_results (toL "Error: Connection timeout") =
      DisplayResult.completed ⟨[], [], [], [], [], []⟩ :=
  ⟨rfl, by decide⟩

/-- C2 amended: the reasoning failure message is returned verbatim (with
the `"Error: "` prefix) as the analysis text and is not retried; a
marker-free analysis such as that text is parsed into six empty sections
and rendered as a completed report; a failed search query silently
contributes zero references and the reference pipeline continues. -/
theorem c2_amended :
    (∀ e : String, query_ai (Except.error e) = "Error: " ++ e) ∧
    (∀ analysis : Str, (∀ m ∈ markerList, containsSub analysis m = false) →
      display_results analysis = DisplayResult.completed ⟨[], [], [], [], [], []⟩) ∧
    (∀ (pre post : List (Except String (List AcademicRef))) (msg : String),
      resolvedRefs (pre ++ Except.error msg :: post) = resolvedRefs (pre ++ post)) := by
  refine ⟨fun e => rfl, fun analysis h => ?_, fun pre post msg => ?_⟩
  · have hs := parse_response_no_markers analysis h
    unfold display_results
    rw [hs]
    decide
  · simp [resolvedRefs, academicRefs, search_academic_references]

/-- Witness for `c2_amended` at concrete failures. -/
theorem c2_amended_witness :
    query_ai (Except.error "boom") = "Error: boom" ∧
    display_results (toL "Error: boom") =
      DisplayResult.completed ⟨[], [], [], [], [], []⟩ ∧
    resolvedRefs [Except.ok [exRef1], Except.error "net down", Except.ok [exRef2]] =
      resolvedRefs [Except.ok [exRef1], Except.ok [exRef2]] :=
  ⟨c2_amended.1 "boom",
   c2_amended.2.1 (toL "Error: boom") (by decide),
   c2_amended.2.2 [Except.ok [exRef1]] [Except.ok [exRef2]] "net down"⟩

/-! ## C1 — section segmentation boundaries

The code picks as end marker the *first in declared dict order* of the
later-occurring headings, not the positionally nearest one (app.py:575-576),
so a scrambled heading order can cross-contaminate sections. -/

/-- C1 counterexample: in `cScrambled` the `Problemas` heading is the
positionally nearest heading after `Evaluación`, but the declared-order
scan picks `Clasificación`, so the recovered evaluation block swallows
the entire problems section instead of being exactly `"EVAL"`. -/
theorem c1_counterexample :
    pyFind cScrambled markerEval < pyFind cScrambled markerProb ∧
    pyFind cScrambled markerProb < pyFind cScrambled markerClass ∧
    (parse_response cScrambled).parameter_evaluation ≠ toL "EVAL" ∧
    (parse_response cScrambled).parameter_evaluation =
      toL "EVAL Problemas Identificados: PROB" := by
  refine ⟨by decide, by decide, by decide, by decide⟩

/-- C1 amended: the section boundary is the first, in the parser's
declared order, of the other headings occurring later; blocks are
recovered exactly in orders where that heading is also the positionally
nearest one — e.g. the declared order itself or its rotation starting at
`Aplicaciones`. -/
theorem c1_amended_roundtrip :
    parse_response cDeclared =
      ⟨toL "EVAL", toL "CLS", toL "PROB", toL "REC", toL "JUS", toL "APP"⟩ ∧
    parse_response cRotated =
      ⟨toL "EVAL", toL "CLS", toL "PROB", toL "REC", toL "JUS", toL "APP"⟩ := by
  refine ⟨by decide, by decide⟩

/-! ## C6 — global title dedup, order, cap -/

theorem uniqueRefs_sublist (l : List AcademicRef) :
    ∀ seen, List.Sublist (uniqueRefs l seen) l := by
  induction l with
  | nil => intro seen; simp [uniqueRefs]
  | cons r rest ih =>
    intro seen
    by_cases hc : seen.contains r.title = true
    · simp only [uniqueRefs, if_pos hc]
      exact List.Sublist.cons r (ih seen)
    · simp only [uniqueRefs, if_neg hc]
      exact List.Sublist.cons₂ r (ih (r.title :: seen))

theorem countP_uniqueRefs_of_seen (t : String) (l : List AcademicRef) :
    ∀ seen, t ∈ seen →
      (uniqueRefs l seen).countP (fun r => r.title == t) = 0 := by
  induction l with
  | nil => intro seen _; simp [uniqueRefs]
  | cons r rest ih =>
    intro seen ht
    by_cases hc : seen.contains r.title = true
    · simp only [uniqueRefs, if_pos hc]
      exact ih seen ht
    · have hne : (r.title == t) = false := by
        rw [beq_eq_false_iff_ne]
        intro he
        rw [he] at hc
        exact hc (List.elem_iff.mpr ht)
      simp only [uniqueRefs, if_neg hc]
      rw [List.countP_cons]
      simp only [hne, Bool.false_eq_true, if_false, Nat.add_zero]
      exact ih _ (List.mem_cons_of_mem _ ht)

theorem countP_uniqueRefs (t : String) (l : List AcademicRef) :
    ∀ seen, t ∉ seen →
      (uniqueRefs l seen).countP (fun r => r.title == t) =
        if l.any (fun r => r.title == t) then 1 else 0 := by
  induction l with
  | nil => intro seen _; simp [uniqueRefs]
  | cons r rest ih =>
    intro seen ht
    by_cases hc : seen.contains r.title = true
    · have hne : (r.title == t) = false := by
        rw [beq_eq_false_iff_ne]
        intro he
        exact ht (he ▸ List.elem_iff.mp hc)
      simp only [uniqueRefs, if_pos hc]
      rw [ih seen ht]
      simp [List.any_cons, hne]
    · by_cases he : (r.title == t) = true
      · have het : r.title = t := eq_of_beq he
        simp only [uniqueRefs, if_neg hc]
        rw [List.countP_cons,
          countP_uniqueRefs_of_seen t rest (r.title :: seen)
            (het ▸ List.mem_cons_self r.title seen)]
        simp [he, List.any_cons]
      · have ht' : t ∉ r.title :: seen := by
          intro hmem
          rcases List.mem_cons.mp hmem with h | h
          · exact absurd (beq_iff_eq.mpr h.symm) (by simp [he])
          · exact ht h
        simp only [uniqueRefs, if_neg hc]
        rw [List.countP_cons, ih _ ht']
        simp [he, List.any_cons]

theorem find?_uniqueRefs (t : String) (l : List AcademicRef) :
    ∀ seen, t ∉ seen →
      (uniqueRefs l seen).find? (fun r => r.title == t) =
        l.find? (fun r => r.title == t) := by
  induction l with
  | nil => intro seen _; simp [uniqueRefs]
  | cons r rest ih =>
    intro seen ht
    by_cases hc : seen.contains r.title = true
    · have hne : (r.title == t) = false := by
        rw [beq_eq_false_iff_ne]
        intro he
        exact ht (he ▸ List.elem_iff.mp hc)
      simp only [uniqueRefs, if_pos hc]
      rw [ih seen ht, List.find?_cons, hne]
    · by_cases he : (r.title == t) = true
      · simp only [uniqueRefs, if_neg hc]
        rw [List.find?_cons, List.find?_cons, he]
      · have ht' : t ∉ r.title :: seen := by
          intro hmem
          rcases List.mem_cons.mp hmem with h | h
          · exact absurd (beq_iff_eq.mpr h.symm) (by simp [he])
          · exact ht h
        have he' : (r.title == t) = false := by
          cases hb : (r.title == t)
          · rfl
          · exact absurd hb he
        simp only [uniqueRefs, if_neg hc]
        rw [List.find?_cons, List.find?_cons, he']
        exact ih _ ht'

/-- C6: the resolved reference list keeps, for each title occurring in the
combined per-query sequence, exactly one record — the first-seen one, in
first-seen order (a sublist of the concatenation whose `find?` agrees with
the concatenation's) — and the overall cap of 10 is applied only after the
dedup. -/
theorem c6_reference_dedup (outcomes : List (Except String (List AcademicRef))) :
    List.Sublist (uniqueRefs (academicRefs outcomes) []) (academicRefs outcomes) ∧
    (∀ t : String, (∃ r ∈ academicRefs outcomes, r.title = t) →
      (uniqueRefs (academicRefs outcomes) []).countP (fun r => r.title == t) = 1) ∧
    (∀ t : String,
      (uniqueRefs (academicRefs outcomes) []).find? (fun r => r.title == t) =
        (academicRefs outcomes).find? (fun r => r.title == t)) ∧
    resolvedRefs outcomes = (uniqueRefs (academicRefs outcomes) []).take 10 := by
  refine ⟨uniqueRefs_sublist _ _, fun t h => ?_,
    fun t => find?_uniqueRefs t _ _ (by simp), rfl⟩
  rw [countP_uniqueRefs t _ _ (by simp)]
  obtain ⟨r, hr, hrt⟩ := h
  have ha : (academicRefs outcomes).any (fun r => r.title == t) = true :=
    List.any_eq_true.mpr ⟨r, hr, by simp [hrt]⟩
  simp [ha]

/-- Witness for `c6_reference_dedup`: two queries sharing the title of
`exRef1`; the shared title survives exactly once, at its first-seen
position. -/
theorem c6_reference_dedup_witness :
    resolvedRefs [Except.ok [exRef1, exRef2], Except.ok [exRef1']] = [exRef1, exRef2] ∧
    (uniqueRefs (academicRefs [Except.ok [exRef1, exRef2], Except.ok [exRef1']]) []).countP
      (fun r => r.title == "Soil stabilization with lime") = 1 :=
  ⟨by decide,
   (c6_reference_dedup [Except.ok [exRef1, exRef2], Except.ok [exRef1']]).2.1
     "Soil stabilization with lime" ⟨exRef1, by decide, rfl⟩⟩

/-- Witness for `c9_zero_omitted` at the all-zero submission. -/
theorem c9_zero_omitted_witness :
    (buildData fZero).desired_strength = none ∧ (buildData fZero).gravel = none ∧
    (buildData fZero).sand = none ∧ (buildData fZero).silt = none ∧
    (buildData fZero).clay = none ∧ (buildData fZero).ll = none ∧
    (buildData fZero).lp = none ∧ (buildData fZero).moisture = none ∧
    (buildData fZero).ph = none ∧ (buildData fZero).cbr = none ∧
    (buildData fZero).swelling = none := by
  obtain ⟨h1, h2, h3, h4, h5, h6, h7, h8⟩ := c9_zero_omitted fZero
  obtain ⟨g1, g2, g3, g4⟩ := h2 ⟨rfl, rfl, rfl, rfl⟩
  exact ⟨h1 rfl, g1, g2, g3, g4, h3 rfl, h4 rfl, h5 rfl, h6 rfl, h7 rfl, h8 rfl⟩

/-! ## Substring non-occurrence machinery

A pattern occurring in a concatenation lies in one side or spans the
junction; a pattern made of non-numeral characters can neither touch a
non-empty rendered numeral nor cross a junction whose right side starts
with a newline the pattern does not contain.  These lemmas let the
label-absence claims be reduced to finitely many checks on the fixed
template pieces. -/

theorem notInfix_nil {α : Type} {p : List α} (hp : p ≠ []) : ¬ p <:+: ([] : List α) :=
  fun h => hp (List.infix_nil.mp h)

/-- The infix relation agrees with the `containsSub` checker. -/
theorem infix_iff_containsSub {p hay : Str} : p <:+: hay ↔ containsSub hay p = true := by
  induction hay with
  | nil => simp [containsSub, List.infix_nil, List.isPrefixOf_iff_prefix, List.prefix_nil]
  | cons c t ih =>
    rw [List.infix_cons_iff]
    simp [containsSub, List.isPrefixOf_iff_prefix, ih]

theorem notInfix_of_containsSub {p hay : Str} (h : containsSub hay p = false) :
    ¬ p <:+: hay :=
  fun hi => by
    rw [infix_iff_containsSub] at hi
    rw [h] at hi
    exact Bool.false_ne_true hi

theorem head?_mem {α : Type} {l : List α} {c : α} (h : l.head? = some c) : c ∈ l := by
  cases l with
  | nil => simp at h
  | cons d ds =>
    simp at h
    rw [← h]
    exact List.mem_cons_self d ds

theorem head?_of_isPrefix {α : Type} {p w : List α} (h : p <+: w) (hp : p ≠ []) :
    w.head? = p.head? := by
  obtain ⟨t, rfl⟩ := h
  cases p with
  | nil => exact absurd rfl hp
  | cons c cs => rfl

/-- An infix of `a ++ b` is an infix of `a`, an infix of `b`, or splits
into a non-empty suffix of `a` followed by a non-empty prefix of `b`. -/
theorem infix_split {α : Type} {p a b : List α} (h : p <:+: (a ++ b)) :
    p <:+: a ∨ p <:+: b ∨
      ∃ p₁ p₂, p = p₁ ++ p₂ ∧ p₁ ≠ [] ∧ p₂ ≠ [] ∧ p₁ <:+ a ∧ p₂ <+: b := by
  obtain ⟨x, y, hxy⟩ := h
  have hxy' : x ++ (p ++ y) = a ++ b := by
    rw [← List.append_assoc]
    exact hxy
  rcases List.append_eq_append_iff.mp hxy' with ⟨a', ha', hpy⟩ | ⟨c', _, hb⟩
  · rcases List.append_eq_append_iff.mp hpy with ⟨w, hw, hy⟩ | ⟨w, hpw, hbw⟩
    · -- a' = p ++ w, so p is a prefix of a suffix of a
      refine Or.inl ⟨x, w, ?_⟩
      rw [ha', hw, List.append_assoc]
    · -- p = a' ++ w with a' a suffix of a and w a prefix of b
      rcases eq_or_ne a' [] with rfl | ha'ne
      · refine Or.inr (Or.inl ⟨[], y, ?_⟩)
        simp only [List.nil_append] at hpw ⊢
        rw [hbw, hpw]
      · rcases eq_or_ne w [] with rfl | hwne
        · rw [List.append_nil] at hpw
          refine Or.inl ⟨x, [], ?_⟩
          rw [List.append_nil, ha', hpw]
        · exact Or.inr (Or.inr ⟨a', w, hpw, ha'ne, hwne, ⟨x, ha'.symm⟩, ⟨y, hbw.symm⟩⟩)
  · refine Or.inr (Or.inl ⟨c', y, ?_⟩)
    rw [hb, List.append_assoc]

/-- Junction guard: no occurrence can cross into a right part that is
empty or starts with a newline the pattern lacks. -/
theorem notInfix_append_sep {p a b : List Char} (hp : p ≠ []) (hnl : '\n' ∉ p)
    (hb : b = [] ∨ b.head? = some '\n') (ha : ¬ p <:+: a) (hbn : ¬ p <:+: b) :
    ¬ p <:+: (a ++ b) := by
  intro h
  rcases infix_split h with h | h | ⟨p₁, p₂, hpe, _, h2, _, hpre⟩
  · exact ha h
  · exact hbn h
  · rcases hb with rfl | hb
    · exact h2 (List.prefix_nil.mp hpre)
    · have hh := head?_of_isPrefix hpre h2
      rw [hb] at hh
      apply hnl
      rw [hpe]
      exact List.mem_append.mpr (Or.inr (head?_mem hh.symm))

/-- Numeral barrier: a non-numeral pattern cannot occur in
`a ++ (v ++ b)` when `v` is a non-empty numeral, unless it occurs in `a`
or in `b`. -/
theorem notInfix_append_numeral {p a v b : List Char} (hp : p ≠ [])
    (hpD : ∀ c ∈ p, ¬ numChar c) (hv : v ≠ []) (hvD : ∀ c ∈ v, numChar c)
    (ha : ¬ p <:+: a) (hb : ¬ p <:+: b) : ¬ p <:+: (a ++ (v ++ b)) := by
  intro h
  rcases infix_split h with h | h | ⟨p₁, p₂, hpe, _, h2, _, hpre⟩
  · exact ha h
  · rcases infix_split h with h' | h' | ⟨p₁, p₂, hpe, h1, _, hs, _⟩
    · obtain ⟨c, hc⟩ := List.exists_mem_of_ne_nil p hp
      exact hpD c hc (hvD c (h'.subset hc))
    · exact hb h'
    · obtain ⟨c, hc⟩ := List.exists_mem_of_ne_nil p₁ h1
      refine hpD c ?_ (hvD c (hs.subset hc))
      rw [hpe]
      exact List.mem_append.mpr (Or.inl hc)
  · cases hv' : v with
    | nil => exact hv hv'
    | cons dd ds =>
      have hh := head?_of_isPrefix hpre h2
      rw [hv'] at hh
      have hd : p₂.head? = some dd := by simpa using hh.symm
      refine hpD dd ?_ (hvD dd (by rw [hv']; exact List.mem_cons_self dd ds))
      rw [hpe]
      exact List.mem_append.mpr (Or.inr (head?_mem hd))

/-- Tail variant of the numeral barrier: `a ++ v` with a trailing
numeral. -/
theorem notInfix_append_numeral_tail {p a v : List Char} (hp : p ≠ [])
    (hpD : ∀ c ∈ p, ¬ numChar c) (hv : v ≠ []) (hvD : ∀ c ∈ v, numChar c)
    (ha : ¬ p <:+: a) : ¬ p <:+: (a ++ v) := by
  have h := notInfix_append_numeral (b := []) hp hpD hv hvD ha (notInfix_nil hp)
  rwa [List.append_nil] at h

theorem head?_append_left {α : Type} {a b : List α} {c : α} (h : a.head? = some c) :
    (a ++ b).head? = some c := by
  cases a with
  | nil => simp at h
  | cons d ds => simpa using h

theorem prefix_of_append_of_len {α : Type} {p x y : List α} (h : p <+: (x ++ y))
    (hl : p.length ≤ x.length) : p <+: x := by
  obtain ⟨t, ht⟩ := h
  have h1 : ((p ++ t).take p.length) = p := List.take_left p t
  have h2 : x.take p.length = p := by
    have h4 := congrArg (List.take p.length) ht
    rw [h1, List.take_append_eq_append_take, Nat.sub_eq_zero_of_le hl,
      List.take_zero, List.append_nil] at h4
    exact h4.symm
  refine ⟨x.drop p.length, ?_⟩
  nth_rewrite 1 [← h2]
  exact List.take_append_drop _ x

theorem suffix_of_append_of_len {α : Type} {p x y : List α} (h : p <:+ (x ++ y))
    (hl : p.length ≤ y.length) : p <:+ y := by
  rw [← List.reverse_prefix] at h ⊢
  rw [List.reverse_append] at h
  exact prefix_of_append_of_len h (by simpa using hl)

/-- Left-guard junction lemma: if no non-empty proper prefix of `p` is a
suffix of `y`, an occurrence of `p` in `(x ++ y) ++ b` lies within
`x ++ y` or within `b`. -/
theorem notInfix_append_leftGuard {p x y b : Str} (hp : p ≠ [])
    (hlen : p.length ≤ y.length + 1) (hspan : noSpanLeft y p = true)
    (hxy : ¬ p <:+: (x ++ y)) (hb : ¬ p <:+: b) : ¬ p <:+: ((x ++ y) ++ b) := by
  intro h
  rcases infix_split h with h | h | ⟨p₁, p₂, hpe, h1, h2, hs, _⟩
  · exact hxy h
  · exact hb h
  · have hl1 : p₁.length + p₂.length = p.length := by
      rw [hpe, List.length_append]
    have hp2 : 0 < p₂.length := List.length_pos_of_ne_nil h2
    have hsy : p₁ <:+ y := suffix_of_append_of_len hs (by omega)
    have htake : p.take p₁.length = p₁ := by
      rw [hpe]
      exact List.take_left p₁ p₂
    have hall := List.all_eq_true.mp hspan p₁.length (by
      simp only [List.mem_range]
      omega)
    rw [Bool.or_eq_true] at hall
    rcases hall with hall | hall
    · have : p₁.length = 0 := by simpa using hall
      exact h1 (List.eq_nil_of_length_eq_zero this)
    · have hfalse : ((p.take p₁.length).isSuffixOf y) = false := by simpa using hall
      rw [htake] at hfalse
      rw [← List.isSuffixOf_iff_suffix] at hsy
      rw [hfalse] at hsy
      exact Bool.false_ne_true hsy

theorem normative_context_head (normatives : List (String × String)) :
    (normative_context normatives).head? = some '\n' := by
  unfold normative_context contextBlock
  split
  · rfl
  · exact head?_append_left rfl

theorem article_context_head (articles : List (String × String)) :
    (article_context articles).head? = some '\n' := by
  unfold article_context contextBlock
  split
  · rfl
  · exact head?_append_left rfl

/-- A pattern avoiding the fixed pieces of the prompt tail, the two
corpus context blocks, the formatted reference lines and the project
notes occurs nowhere in the assembled tail. -/
theorem notInfix_promptTail {p info : Str} {normatives articles : List (String × String)}
    {outcomes : List (Except String (List AcademicRef))}
    (hp : p ≠ []) (hnl : '\n' ∉ p)
    (hlen3 : p.length ≤ (toL "\n\n    ### Referencias Académicas Relevantes:\n    ").length + 1)
    (hspan3 : noSpanLeft (toL "\n\n    ### Referencias Académicas Relevantes:\n    ") p = true)
    (hlen4 : p.length ≤ (toL "\n\n    ### Información Adicional del Proyecto:\n    ").length + 1)
    (hspan4 : noSpanLeft (toL "\n\n    ### Información Adicional del Proyecto:\n    ") p = true)
    (hF1 : ¬ p <:+: toL "\n\n    ### Contexto Técnico:\n    ")
    (hF2 : ¬ p <:+: toL "\n    ")
    (hF3 : ¬ p <:+: toL "\n\n    ### Referencias Académicas Relevantes:\n    ")
    (hF4 : ¬ p <:+: toL "\n\n    ### Información Adicional del Proyecto:\n    ")
    (hF5 : ¬ p <:+: toL reqBlock)
    (hnin : ¬ p <:+: toL "Ninguna")
    (hnc : ¬ p <:+: normative_context normatives)
    (hac : ¬ p <:+: article_context articles)
    (hrt : ¬ p <:+: refs_text outcomes)
    (hinfo : ¬ p <:+: info) :
    ¬ p <:+: promptTail info normatives articles outcomes := by
  have hinf' : ¬ p <:+: (if info = [] then toL "Ninguna" else info) := by
    by_cases hi : info = []
    · rw [if_pos hi]
      exact hnin
    · rw [if_neg hi]
      exact hinfo
  simp only [promptTail]
  refine notInfix_append_sep hp hnl (Or.inr rfl) ?_ hF5
  refine notInfix_append_leftGuard hp hlen4 hspan4 ?_ hinf'
  refine notInfix_append_sep hp hnl (Or.inr rfl) ?_ hF4
  refine notInfix_append_leftGuard hp hlen3 hspan3 ?_ hrt
  refine notInfix_append_sep hp hnl (Or.inr rfl) ?_ hF3
  refine notInfix_append_sep hp hnl (Or.inr (article_context_head articles)) ?_ hac
  refine notInfix_append_sep hp hnl (Or.inr rfl) ?_ hF2
  exact notInfix_append_sep hp hnl (Or.inr (normative_context_head normatives)) hF1 hnc

/-- Combining two parts that are each empty-or-newline-headed. -/
theorem partsHead {x y : List Char} (hx : x = [] ∨ x.head? = some '\n')
    (hy : y = [] ∨ y.head? = some '\n') :
    x ++ y = [] ∨ (x ++ y).head? = some '\n' := by
  rcases hx with rfl | hx
  · simpa using hy
  · exact Or.inr (head?_append_left hx)

/-! ## Per-part lemmas for the technical-data block -/

theorem dsPart_head (render : ℚ → Str) (d : ParameterSet) :
    dsPart render d = [] ∨ (dsPart render d).head? = some '\n' := by
  cases h : d.desired_strength with
  | none => exact Or.inl (by simp [dsPart, h])
  | some v =>
    refine Or.inr ?_
    simp only [dsPart, h]
    exact head?_append_left (head?_append_left rfl)

theorem granPart_head (render : ℚ → Str) (d : ParameterSet) :
    granPart render d = [] ∨ (granPart render d).head? = some '\n' := by
  rcases hg : d.gravel with _ | g
  · exact Or.inl (by simp [granPart, hg])
  rcases hs : d.sand with _ | s
  · exact Or.inl (by simp [granPart, hg, hs])
  rcases hsi : d.silt with _ | si
  · exact Or.inl (by simp [granPart, hg, hs, hsi])
  rcases hc : d.clay with _ | c
  · exact Or.inl (by simp [granPart, hg, hs, hsi, hc])
  refine Or.inr ?_
  simp only [granPart, hg, hs, hsi, hc]
  exact head?_append_left (head?_append_left (head?_append_left (head?_append_left
    (head?_append_left (head?_append_left (head?_append_left (head?_append_left rfl)))))))

theorem attPart_head (render : ℚ → Str) (d : ParameterSet) :
    attPart render d = [] ∨ (attPart render d).head? = some '\n' := by
  rcases hll : d.ll with _ | ll
  · exact Or.inl (by simp [attPart, hll])
  rcases hlp : d.lp with _ | lp
  · exact Or.inl (by simp [attPart, hll, hlp])
  refine Or.inr ?_
  simp only [attPart, hll, hlp]
  exact head?_append_left (head?_append_left (head?_append_left (head?_append_left rfl)))

theorem moistPart_head (render : ℚ → Str) (d : ParameterSet) :
    moistPart render d = [] ∨ (moistPart render d).head? = some '\n' := by
  cases h : d.moisture with
  | none => exact Or.inl (by simp [moistPart, h])
  | some v =>
    refine Or.inr ?_
    simp only [moistPart, h]
    exact head?_append_left (head?_append_left rfl)

theorem phPart_head (render : ℚ → Str) (d : ParameterSet) :
    phPart render d = [] ∨ (phPart render d).head? = some '\n' := by
  cases h : d.ph with
  | none => exact Or.inl (by simp [phPart, h])
  | some v =>
    refine Or.inr ?_
    simp only [phPart, h]
    exact head?_append_left rfl

theorem cbrPart_head (render : ℚ → Str) (d : ParameterSet) :
    cbrPart render d = [] ∨ (cbrPart render d).head? = some '\n' := by
  cases h : d.cbr with
  | none => exact Or.inl (by simp [cbrPart, h])
  | some v =>
    refine Or.inr ?_
    simp only [cbrPart, h]
    exact head?_append_left (head?_append_left rfl)

theorem swellPart_head (render : ℚ → Str) (d : ParameterSet) :
    swellPart render d = [] ∨ (swellPart render d).head? = some '\n' := by
  cases h : d.swelling with
  | none => exact Or.inl (by simp [swellPart, h])
  | some v =>
    refine Or.inr ?_
    simp only [swellPart, h]
    exact head?_append_left (head?_append_left rfl)

theorem soilBase_head (render : ℚ → Str) (d : ParameterSet) :
    (soilBase render d).head? = some '\n' := by
  simp only [soilBase]
  exact head?_append_left (head?_append_left (head?_append_left (head?_append_left
    (head?_append_left (head?_append_left rfl)))))

theorem soil_data_text_head (render : ℚ → Str) (d : ParameterSet) :
    (soil_data_text render d).head? = some '\n' := by
  simp only [soil_data_text]
  exact head?_append_left (head?_append_left (head?_append_left (head?_append_left
    (head?_append_left (head?_append_left (head?_append_left (soilBase_head render d)))))))

theorem promptTail_head (info : Str) (normatives articles : List (String × String))
    (outcomes : List (Except String (List AcademicRef))) :
    (promptTail info normatives articles outcomes).head? = some '\n' := by
  simp only [promptTail]
  exact head?_append_left (head?_append_left (head?_append_left (head?_append_left
    (head?_append_left (head?_append_left (head?_append_left (head?_append_left rfl)))))))

theorem notInfix_dsPart {p : Str} {render : ℚ → Str} {d : ParameterSet}
    (hp : p ≠ []) (hpD : ∀ c ∈ p, ¬ numChar c) (hrender : NumeralRender render)
    (hcase : d.desired_strength = none ∨
      (¬ p <:+: toL "\n4. Resistencia deseada: " ∧ ¬ p <:+: toL " kPa")) :
    ¬ p <:+: dsPart render d := by
  cases hv : d.desired_strength with
  | none => simpa [dsPart, hv] using notInfix_nil hp
  | some v =>
    rcases hcase with h | ⟨h1, h2⟩
    · rw [hv] at h
      exact absurd h (by simp)
    · simp only [dsPart, hv]
      rw [List.append_assoc]
      exact notInfix_append_numeral hp hpD (hrender v).1 (hrender v).2 h1 h2

theorem notInfix_granPart {p : Str} {render : ℚ → Str} {d : ParameterSet}
    (hp : p ≠ []) (hpD : ∀ c ∈ p, ¬ numChar c) (hrender : NumeralRender render)
    (hcase : (d.gravel = none ∨ d.sand = none ∨ d.silt = none ∨ d.clay = none) ∨
      (¬ p <:+: toL "\n    5. Granulometría:\n       - Grava: " ∧
       ¬ p <:+: toL "%\n       - Arena: " ∧
       ¬ p <:+: toL "%\n       - Limo: " ∧
       ¬ p <:+: toL "%\n       - Arcilla: " ∧
       ¬ p <:+: toL "%")) :
    ¬ p <:+: granPart render d := by
  rcases hg : d.gravel with _ | g
  · simpa [granPart, hg] using notInfix_nil hp
  rcases hs : d.sand with _ | s
  · simpa [granPart, hg, hs] using notInfix_nil hp
  rcases hsi : d.silt with _ | si
  · simpa [granPart, hg, hs, hsi] using notInfix_nil hp
  rcases hc : d.clay with _ | c
  · simpa [granPart, hg, hs, hsi, hc] using notInfix_nil hp
  rcases hcase with h | ⟨h1, h2, h3, h4, h5⟩
  · rcases h with h | h | h | h <;> simp_all
  · simp only [granPart, hg, hs, hsi, hc]
    simp only [List.append_assoc]
    refine notInfix_append_numeral hp hpD (hrender g).1 (hrender g).2 h1 ?_
    refine notInfix_append_numeral hp hpD (hrender s).1 (hrender s).2 h2 ?_
    refine notInfix_append_numeral hp hpD (hrender si).1 (hrender si).2 h3 ?_
    exact notInfix_append_numeral hp hpD (hrender c).1 (hrender c).2 h4 h5

theorem notInfix_ipPart {p : Str} {render : ℚ → Str} {d : ParameterSet}
    (hp : p ≠ []) (hpD : ∀ c ∈ p, ¬ numChar c) (hrender : NumeralRender render)
    (hcase : d.ip = none ∨ ¬ p <:+: toL "\n       - Índice de plasticidad (IP): ") :
    ¬ p <:+: ipPart render d := by
  cases hv : d.ip with
  | none => simpa [ipPart, hv] using notInfix_nil hp
  | some v =>
    rcases hcase with h | h1
    · rw [hv] at h
      exact absurd h (by simp)
    · simp only [ipPart, hv]
      exact notInfix_append_numeral_tail hp hpD (hrender v).1 (hrender v).2 h1

theorem notInfix_attPart {p : Str} {render : ℚ → Str} {d : ParameterSet}
    (hp : p ≠ []) (hpD : ∀ c ∈ p, ¬ numChar c) (hrender : NumeralRender render)
    (hcase : (d.ll = none ∨ d.lp = none) ∨
      (¬ p <:+: toL "\n    6. Límites de Atterberg:\n       - Límite líquido (LL): " ∧
       ¬ p <:+: toL "\n       - Límite plástico (LP): " ∧
       (d.ip = none ∨ ¬ p <:+: toL "\n       - Índice de plasticidad (IP): "))) :
    ¬ p <:+: attPart render d := by
  rcases hll : d.ll with _ | ll
  · simpa [attPart, hll] using notInfix_nil hp
  rcases hlp : d.lp with _ | lp
  · simpa [attPart, hll, hlp] using notInfix_nil hp
  rcases hcase with h | ⟨h1, h2, hip⟩
  · rcases h with h | h <;> simp_all
  · simp only [attPart, hll, hlp]
    simp only [List.append_assoc]
    refine notInfix_append_numeral hp hpD (hrender ll).1 (hrender ll).2 h1 ?_
    exact notInfix_append_numeral hp hpD (hrender lp).1 (hrender lp).2 h2
      (notInfix_ipPart hp hpD hrender hip)

theorem notInfix_moistPart {p : Str} {render : ℚ → Str} {d : ParameterSet}
    (hp : p ≠ []) (hpD : ∀ c ∈ p, ¬ numChar c) (hrender : NumeralRender render)
    (hcase : d.moisture = none ∨
      (¬ p <:+: toL "\n7. Contenido de humedad natural: " ∧ ¬ p <:+: toL "%")) :
    ¬ p <:+: moistPart render d := by
  cases hv : d.moisture with
  | none => simpa [moistPart, hv] using notInfix_nil hp
  | some v =>
    rcases hcase with h | ⟨h1, h2⟩
    · rw [hv] at h
      exact absurd h (by simp)
    · simp only [moistPart, hv]
      rw [List.append_assoc]
      exact notInfix_append_numeral hp hpD (hrender v).1 (hrender v).2 h1 h2

theorem notInfix_phPart {p : Str} {render : ℚ → Str} {d : ParameterSet}
    (hp : p ≠ []) (hpD : ∀ c ∈ p, ¬ numChar c) (hrender : NumeralRender render)
    (hcase : d.ph = none ∨ ¬ p <:+: toL "\n8. pH del suelo: ") :
    ¬ p <:+: phPart render d := by
  cases hv : d.ph with
  | none => simpa [phPart, hv] using notInfix_nil hp
  | some v =>
    rcases hcase with h | h1
    · rw [hv] at h
      exact absurd h (by simp)
    · simp only [phPart, hv]
      exact notInfix_append_numeral_tail hp hpD (hrender v).1 (hrender v).2 h1

theorem notInfix_cbrPart {p : Str} {render : ℚ → Str} {d : ParameterSet}
    (hp : p ≠ []) (hpD : ∀ c ∈ p, ¬ numChar c) (hrender : NumeralRender render)
    (hcase : d.cbr = none ∨ (¬ p <:+: toL "\n9. CBR: " ∧ ¬ p <:+: toL "%")) :
    ¬ p <:+: cbrPart render d := by
  cases hv : d.cbr with
  | none => simpa [cbrPart, hv] using notInfix_nil hp
  | some v =>
    rcases hcase with h | ⟨h1, h2⟩
    · rw [hv] at h
      exact absurd h (by simp)
    · simp only [cbrPart, hv]
      rw [List.append_assoc]
      exact notInfix_append_numeral hp hpD (hrender v).1 (hrender v).2 h1 h2

theorem notInfix_swellPart {p : Str} {render : ℚ → Str} {d : ParameterSet}
    (hp : p ≠ []) (hpD : ∀ c ∈ p, ¬ numChar c) (hrender : NumeralRender render)
    (hcase : d.swelling = none ∨
      (¬ p <:+: toL "\n10. Potencial de hinchamiento: " ∧ ¬ p <:+: toL "%")) :
    ¬ p <:+: swellPart render d := by
  cases hv : d.swelling with
  | none => simpa [swellPart, hv] using notInfix_nil hp
  | some v =>
    rcases hcase with h | ⟨h1, h2⟩
    · rw [hv] at h
      exact absurd h (by simp)
    · simp only [swellPart, hv]
      rw [List.append_assoc]
      exact notInfix_append_numeral hp hpD (hrender v).1 (hrender v).2 h1 h2

theorem notInfix_soilBase {p : Str} {render : ℚ → Str} {d : ParameterSet}
    (hp : p ≠ []) (hpD : ∀ c ∈ p, ¬ numChar c) (hnl : '\n' ∉ p)
    (hrender : NumeralRender render) (hst : d.soil_type ∈ SOIL_TYPES)
    (hbase : ∀ st ∈ SOIL_TYPES, ¬ p <:+:
      (toL "\n    ### Datos Técnicos del Suelo:\n    1. Tipo de suelo: " ++ st.toList))
    (h2 : ¬ p <:+: toL "\n    2. Nivel freático: ")
    (h3 : ¬ p <:+: toL " m\n    3. Presión de carga: ")
    (h4 : ¬ p <:+: toL " kPa") :
    ¬ p <:+: soilBase render d := by
  have heq : soilBase render d =
      (toL "\n    ### Datos Técnicos del Suelo:\n    1. Tipo de suelo: " ++
        d.soil_type.toList) ++
      (toL "\n    2. Nivel freático: " ++ (render d.water_level ++
        (toL " m\n    3. Presión de carga: " ++
          (render d.load_pressure ++ toL " kPa")))) := by
    simp [soilBase, List.append_assoc]
  rw [heq]
  refine notInfix_append_sep hp hnl (Or.inr (head?_append_left rfl)) (hbase _ hst) ?_
  refine notInfix_append_numeral hp hpD (hrender _).1 (hrender _).2 h2 ?_
  exact notInfix_append_numeral hp hpD (hrender _).1 (hrender _).2 h3 h4

/-- Master lemma: a non-numeral, newline-free pattern occurs nowhere in
the technical-data block, provided it avoids the fixed pieces of the
required lines and, for each optional attribute, either the attribute is
absent or the pattern avoids that attribute's fixed pieces. -/
theorem notInfix_soil_data {p : Str} {render : ℚ → Str} {d : ParameterSet}
    (hp : p ≠ []) (hpD : ∀ c ∈ p, ¬ numChar c) (hnl : '\n' ∉ p)
    (hrender : NumeralRender render) (hst : d.soil_type ∈ SOIL_TYPES)
    (hbase : ∀ st ∈ SOIL_TYPES, ¬ p <:+:
      (toL "\n    ### Datos Técnicos del Suelo:\n    1. Tipo de suelo: " ++ st.toList))
    (h2 : ¬ p <:+: toL "\n    2. Nivel freático: ")
    (h3 : ¬ p <:+: toL " m\n    3. Presión de carga: ")
    (h4 : ¬ p <:+: toL " kPa")
    (hds : d.desired_strength = none ∨
      (¬ p <:+: toL "\n4. Resistencia deseada: " ∧ ¬ p <:+: toL " kPa"))
    (hgran : (d.gravel = none ∨ d.sand = none ∨ d.silt = none ∨ d.clay = none) ∨
      (¬ p <:+: toL "\n    5. Granulometría:\n       - Grava: " ∧
       ¬ p <:+: toL "%\n       - Arena: " ∧
       ¬ p <:+: toL "%\n       - Limo: " ∧
       ¬ p <:+: toL "%\n       - Arcilla: " ∧
       ¬ p <:+: toL "%"))
    (hatt : (d.ll = none ∨ d.lp = none) ∨
      (¬ p <:+: toL "\n    6. Límites de Atterberg:\n       - Límite líquido (LL): " ∧
       ¬ p <:+: toL "\n       - Límite plástico (LP): " ∧
       (d.ip = none ∨ ¬ p <:+: toL "\n       - Índice de plasticidad (IP): ")))
    (hmoist : d.moisture = none ∨
      (¬ p <:+: toL "\n7. Contenido de humedad natural: " ∧ ¬ p <:+: toL "%"))
    (hph : d.ph = none ∨ ¬ p <:+: toL "\n8. pH del suelo: ")
    (hcbr : d.cbr = none ∨ (¬ p <:+: toL "\n9. CBR: " ∧ ¬ p <:+: toL "%"))
    (hswell : d.swelling = none ∨
      (¬ p <:+: toL "\n10. Potencial de hinchamiento: " ∧ ¬ p <:+: toL "%")) :
    ¬ p <:+: soil_data_text render d := by
  simp only [soil_data_text]
  refine notInfix_append_sep hp hnl (swellPart_head render d) ?_
    (notInfix_swellPart hp hpD hrender hswell)
  refine notInfix_append_sep hp hnl (cbrPart_head render d) ?_
    (notInfix_cbrPart hp hpD hrender hcbr)
  refine notInfix_append_sep hp hnl (phPart_head render d) ?_
    (notInfix_phPart hp hpD hrender hph)
  refine notInfix_append_sep hp hnl (moistPart_head render d) ?_
    (notInfix_moistPart hp hpD hrender hmoist)
  refine notInfix_append_sep hp hnl (attPart_head render d) ?_
    (notInfix_attPart hp hpD hrender hatt)
  refine notInfix_append_sep hp hnl (granPart_head render d) ?_
    (notInfix_granPart hp hpD hrender hgran)
  refine notInfix_append_sep hp hnl (dsPart_head render d) ?_
    (notInfix_dsPart hp hpD hrender hds)
  exact notInfix_soilBase hp hpD hnl hrender hst hbase h2 h3 h4

/-! ## C4 — absent attributes leave no label in the prompt -/

/-- C4: for every optional attribute absent from the `ParameterSet`, the
assembled instruction document never contains that attribute's label
text — provided the soil type is one of the form's choices, the rendered
numerals consist of numeral characters, and none of the externally
sourced text blocks (the two corpus context blocks, the formatted search
references, the project notes) itself contains the label.  All fixed
template text is proved label-free by computation. -/
theorem c4_label_absent (render : ℚ → Str) (d : ParameterSet) (attr : OptAttr)
    (info : Str) (normatives articles : List (String × String))
    (net : Str → Except String (List AcademicRef))
    (hrender : NumeralRender render) (hst : d.soil_type ∈ SOIL_TYPES)
    (habs : attrAbsent attr d)
    (hnc : ¬ labelOf attr <:+: normative_context normatives)
    (hac : ¬ labelOf attr <:+: article_context articles)
    (hrt : ¬ labelOf attr <:+: refs_text ((search_queries render d).map net))
    (hinfo : ¬ labelOf attr <:+: info) :
    ¬ labelOf attr <:+: generate_technical_prompt render d info normatives articles net := by
  have htail : ¬ labelOf attr <:+:
      promptTail info normatives articles ((search_queries render d).map net) := by
    refine notInfix_promptTail (by cases attr <;> decide) (by cases attr <;> decide)
      (by cases attr <;> decide) (by cases attr <;> decide) (by cases attr <;> decide)
      (by cases attr <;> decide) (by cases attr <;> decide) (by cases attr <;> decide)
      (by cases attr <;> decide) (by cases attr <;> decide) ?_
      (by cases attr <;> decide) hnc hac hrt hinfo
    cases attr <;> exact notInfix_of_containsSub (by decide)
  have hp : labelOf attr ≠ [] := by cases attr <;> decide
  have hpD : ∀ c ∈ labelOf attr, ¬ numChar c := by cases attr <;> decide
  have hnl : '\n' ∉ labelOf attr := by cases attr <;> decide
  have hpre : ¬ labelOf attr <:+: promptPre := by cases attr <;> decide
  have hbase : ∀ st ∈ SOIL_TYPES, ¬ labelOf attr <:+:
      (toL "\n    ### Datos Técnicos del Suelo:\n    1. Tipo de suelo: " ++ st.toList) := by
    cases attr <;> decide
  have h2 : ¬ labelOf attr <:+: toL "\n    2. Nivel freático: " := by cases attr <;> decide
  have h3 : ¬ labelOf attr <:+: toL " m\n    3. Presión de carga: " := by
    cases attr <;> decide
  have h4 : ¬ labelOf attr <:+: toL " kPa" := by cases attr <;> decide
  have hsoil : ¬ labelOf attr <:+: soil_data_text render d := by
    cases attr with
    | strength =>
      exact notInfix_soil_data hp hpD hnl hrender hst hbase h2 h3 h4 (Or.inl habs)
        (Or.inr ⟨by decide, by decide, by decide, by decide, by decide⟩)
        (Or.inr ⟨by decide, by decide, Or.inr (by decide)⟩)
        (Or.inr ⟨by decide, by decide⟩) (Or.inr (by decide))
        (Or.inr ⟨by decide, by decide⟩) (Or.inr ⟨by decide, by decide⟩)
    | gravelPct =>
      exact notInfix_soil_data hp hpD hnl hrender hst hbase h2 h3 h4
        (Or.inr ⟨by decide, by decide⟩) (Or.inl (Or.inl habs))
        (Or.inr ⟨by decide, by decide, Or.inr (by decide)⟩)
        (Or.inr ⟨by decide, by decide⟩) (Or.inr (by decide))
        (Or.inr ⟨by decide, by decide⟩) (Or.inr ⟨by decide, by decide⟩)
    | sandPct =>
      exact notInfix_soil_data hp hpD hnl hrender hst hbase h2 h3 h4
        (Or.inr ⟨by decide, by decide⟩) (Or.inl (Or.inr (Or.inl habs)))
        (Or.inr ⟨by decide, by decide, Or.inr (by decide)⟩)
        (Or.inr ⟨by decide, by decide⟩) (Or.inr (by decide))
        (Or.inr ⟨by decide, by decide⟩) (Or.inr ⟨by decide, by decide⟩)
    | siltPct =>
      exact notInfix_soil_data hp hpD hnl hrender hst hbase h2 h3 h4
        (Or.inr ⟨by decide, by decide⟩) (Or.inl (Or.inr (Or.inr (Or.inl habs))))
        (Or.inr ⟨by decide, by decide, Or.inr (by decide)⟩)
        (Or.inr ⟨by decide, by decide⟩) (Or.inr (by decide))
        (Or.inr ⟨by decide, by decide⟩) (Or.inr ⟨by decide, by decide⟩)
    | clayPct =>
      exact notInfix_soil_data hp hpD hnl hrender hst hbase h2 h3 h4
        (Or.inr ⟨by decide, by decide⟩) (Or.inl (Or.inr (Or.inr (Or.inr habs))))
        (Or.inr ⟨by decide, by decide, Or.inr (by decide)⟩)
        (Or.inr ⟨by decide, by decide⟩) (Or.inr (by decide))
        (Or.inr ⟨by decide, by decide⟩) (Or.inr ⟨by decide, by decide⟩)
    | liquidLimit =>
      exact notInfix_soil_data hp hpD hnl hrender hst hbase h2 h3 h4
        (Or.inr ⟨by decide, by decide⟩)
        (Or.inr ⟨by decide, by decide, by decide, by decide, by decide⟩)
        (Or.inl (Or.inl habs))
        (Or.inr ⟨by decide, by decide⟩) (Or.inr (by decide))
        (Or.inr ⟨by decide, by decide⟩) (Or.inr ⟨by decide, by decide⟩)
    | plasticLimit =>
      exact notInfix_soil_data hp hpD hnl hrender hst hbase h2 h3 h4
        (Or.inr ⟨by decide, by decide⟩)
        (Or.inr ⟨by decide, by decide, by decide, by decide, by decide⟩)
        (Or.inl (Or.inr habs))
        (Or.inr ⟨by decide, by decide⟩) (Or.inr (by decide))
        (Or.inr ⟨by decide, by decide⟩) (Or.inr ⟨by decide, by decide⟩)
    | plasticityIndex =>
      exact notInfix_soil_data hp hpD hnl hrender hst hbase h2 h3 h4
        (Or.inr ⟨by decide, by decide⟩)
        (Or.inr ⟨by decide, by decide, by decide, by decide, by decide⟩)
        (Or.inr ⟨by decide, by decide, Or.inl habs⟩)
        (Or.inr ⟨by decide, by decide⟩) (Or.inr (by decide))
        (Or.inr ⟨by decide, by decide⟩) (Or.inr ⟨by decide, by decide⟩)
    | moistureContent =>
      exact notInfix_soil_data hp hpD hnl hrender hst hbase h2 h3 h4
        (Or.inr ⟨by decide, by decide⟩)
        (Or.inr ⟨by decide, by decide, by decide, by decide, by decide⟩)
        (Or.inr ⟨by decide, by decide, Or.inr (by decide)⟩)
        (Or.inl habs) (Or.inr (by decide))
        (Or.inr ⟨by decide, by decide⟩) (Or.inr ⟨by decide, by decide⟩)
    | phValue =>
      exact notInfix_soil_data hp hpD hnl hrender hst hbase h2 h3 h4
        (Or.inr ⟨by decide, by decide⟩)
        (Or.inr ⟨by decide, by decide, by decide, by decide, by decide⟩)
        (Or.inr ⟨by decide, by decide, Or.inr (by decide)⟩)
        (Or.inr ⟨by decide, by decide⟩) (Or.inl habs)
        (Or.inr ⟨by decide, by decide⟩) (Or.inr ⟨by decide, by decide⟩)
    | cbrValue =>
      exact notInfix_soil_data hp hpD hnl hrender hst hbase h2 h3 h4
        (Or.inr ⟨by decide, by decide⟩)
        (Or.inr ⟨by decide, by decide, by decide, by decide, by decide⟩)
        (Or.inr ⟨by decide, by decide, Or.inr (by decide)⟩)
        (Or.inr ⟨by decide, by decide⟩) (Or.inr (by decide))
        (Or.inl habs) (Or.inr ⟨by decide, by decide⟩)
    | swellingPot =>
      exact notInfix_soil_data hp hpD hnl hrender hst hbase h2 h3 h4
        (Or.inr ⟨by decide, by decide⟩)
        (Or.inr ⟨by decide, by decide, by decide, by decide, by decide⟩)
        (Or.inr ⟨by decide, by decide, Or.inr (by decide)⟩)
        (Or.inr ⟨by decide, by decide⟩) (Or.inr (by decide))
        (Or.inr ⟨by decide, by decide⟩) (Or.inl habs)
  have heq : generate_technical_prompt render d info normatives articles net =
      promptPre ++ (soil_data_text render d ++
        promptTail info normatives articles ((search_queries render d).map net)) := by
    simp [generate_technical_prompt, List.append_assoc]
  rw [heq]
  refine notInfix_append_sep hp hnl
    (Or.inr (head?_append_left (soil_data_text_head render d))) hpre ?_
  exact notInfix_append_sep hp hnl (Or.inr (promptTail_head _ _ _ _)) hsoil htail

/-- Witness for `c4_label_absent`: with CBR absent, the label `CBR:` is
nowhere in the concretely assembled prompt. -/
theorem renderZero_numeral : NumeralRender renderZero := fun _ =>
  ⟨(by decide : toL "0" ≠ []), (by decide : ∀ c ∈ toL "0", numChar c)⟩

theorem c4_label_absent_witness :
    ¬ labelOf OptAttr.cbrValue <:+:
      generate_technical_prompt renderZero dPlain [] [] [] netFail :=
  c4_label_absent renderZero dPlain OptAttr.cbrValue [] [] [] netFail
    renderZero_numeral (by decide) rfl (by decide) (by decide) (by decide)
    (notInfix_nil (by decide))

/-! ## C5 — technical-data block numbering

The item numbers 4-10 are hard-coded per attribute (app.py:377-405): an
absent attribute leaves a gap and later attributes keep their fixed slot
numbers, contradicting the claimed contiguous renumbering. -/

/-- C5 counterexample: with only moisture present among the optional
attributes, the block contains the line numbered `7` while no line `4`,
`5` or `6` exists — a gap, and no renumbering of moisture to `4`. -/
theorem c5_counterexample :
    containsSub (soil_data_text renderZero dMoist)
      (toL "\n7. Contenido de humedad natural: ") = true ∧
    containsSub (soil_data_text renderZero dMoist) (toL "4. ") = false ∧
    containsSub (soil_data_text renderZero dMoist) (toL "5. ") = false ∧
    containsSub (soil_data_text renderZero dMoist) (toL "6. ") = false := by
  refine ⟨by decide, by decide, by decide, by decide⟩

/-- C5 amended: indices are fixed slot numbers per attribute; whenever
moisture is present its line keeps the fixed number `7`, regardless of
which earlier optional attributes are absent. -/
theorem c5_amended (render : ℚ → Str) (d : ParameterSet) (v : ℚ)
    (hm : d.moisture = some v) :
    toL "\n7. Contenido de humedad natural: " <:+: soil_data_text render d := by
  refine ⟨soilBase render d ++ dsPart render d ++ granPart render d ++ attPart render d,
    render v ++ toL "%" ++ phPart render d ++ cbrPart render d ++ swellPart render d, ?_⟩
  simp only [soil_data_text, moistPart, hm, List.append_assoc]

/-- Witness for `c5_amended` at the concrete moisture-only input. -/
theorem c5_amended_witness :
    toL "\n7. Contenido de humedad natural: " <:+: soil_data_text renderZero dMoist :=
  c5_amended renderZero dMoist 12 rfl

end Geotec
